import Mathlib

/-!
Verification of the rm2_linux drivers: the Wacom I2C pen driver
(wacom_i2c_irq sample decoding and tool latching, wacom_query_device
capability decoding) and the SY7636A regulator/MFD driver (VCOM voltage
encode/decode, power-good polling in enable and get_status, fault-flag
decoding).  Each C function is embedded as an executable Lean definition
over explicit state: regmaps are functions from register address to byte,
GPIO reads are an oracle from poll index to the returned int, and the
I2C sample buffer is a list of bytes.
-/

set_option maxRecDepth 4000

namespace Rm2

/-- Little-endian 16-bit load from two bytes, as done by
get_unaligned_le16 and le16_to_cpup in the C source. -/
def le16 (lo hi : Nat) : Nat := lo + 256 * hi

/-- Interpretation of a 16-bit load as a signed C short, used for the
tilt fields of the pen sample. -/
def toSigned16 (v : Nat) : Int :=
  if v % 65536 < 32768 then ((v % 65536 : Nat) : Int)
  else ((v % 65536 : Nat) : Int) - 65536

/-- Input key code BTN_TOOL_PEN from input-event-codes.h. -/
def BTN_TOOL_PEN : Nat := 0x140

/-- Input key code BTN_TOOL_RUBBER from input-event-codes.h. -/
def BTN_TOOL_RUBBER : Nat := 0x141

/-- Input key code BTN_TOUCH. -/
def BTN_TOUCH : Nat := 0x14a

/-- Input key code BTN_STYLUS. -/
def BTN_STYLUS : Nat := 0x14b

/-- Input key code BTN_STYLUS2. -/
def BTN_STYLUS2 : Nat := 0x14c

/-- Absolute axis code ABS_X. -/
def ABS_X : Nat := 0x00

/-- Absolute axis code ABS_Y. -/
def ABS_Y : Nat := 0x01

/-- Absolute axis code ABS_PRESSURE. -/
def ABS_PRESSURE : Nat := 0x18

/-- Absolute axis code ABS_DISTANCE. -/
def ABS_DISTANCE : Nat := 0x19

/-- Absolute axis code ABS_TILT_X. -/
def ABS_TILT_X : Nat := 0x1a

/-- Absolute axis code ABS_TILT_Y. -/
def ABS_TILT_Y : Nat := 0x1b

/-- Events emitted to the input core by the interrupt handler:
input_report_key, input_report_abs and input_sync. -/
inductive Event where
  | key (code : Nat) (value : Bool)
  | abs (code : Nat) (value : Int)
  | syn
deriving DecidableEq, Repr

/-- Decode failure for a sample or capability buffer. -/
inductive DecodeError where
  | ShortBuffer
deriving DecidableEq, Repr

/-- Fields extracted from one pen report by wacom_i2c_irq: the masked
bits of the status byte data[3], the little-endian axis loads, and the
raw status byte itself, which the handler reuses for the tool latch
(mask 0x0c) and the proximity flag (mask 0x20). -/
structure PenSample where
  tsw : Nat
  ers : Nat
  f1 : Nat
  f2 : Nat
  x : Nat
  y : Nat
  pressure : Nat
  distance : Nat
  tilt_x : Int
  tilt_y : Int
  status : Nat
deriving DecidableEq, Repr

/-- Field extraction performed inline by wacom_i2c_irq on the received
buffer.  The C code reads bytes data[3] through data[14]; a buffer too
short to supply those offsets yields no sample, which the spec names
DecodeError ShortBuffer. -/
def decode_sample (data : List Nat) : Except DecodeError PenSample :=
  if data.length < 15 then .error DecodeError.ShortBuffer
  else .ok {
    tsw := data.getD 3 0 &&& 0x01,
    ers := data.getD 3 0 &&& 0x04,
    f1 := data.getD 3 0 &&& 0x02,
    f2 := data.getD 3 0 &&& 0x10,
    x := le16 (data.getD 4 0) (data.getD 5 0),
    y := le16 (data.getD 6 0) (data.getD 7 0),
    pressure := le16 (data.getD 8 0) (data.getD 9 0),
    distance := data.getD 10 0,
    tilt_x := toSigned16 (le16 (data.getD 11 0) (data.getD 12 0)),
    tilt_y := toSigned16 (le16 (data.getD 13 0) (data.getD 14 0)),
    status := data.getD 3 0 }

/-- Persistent tracker state of struct wacom_i2c: the prox flag and the
latched tool code. -/
structure WacomI2c where
  prox : Bool
  tool : Nat
deriving DecidableEq, Repr

/-- Tracker state right after probe: the struct is kzalloc-ed, so prox
is false and tool is 0. -/
def wacom_init : WacomI2c := ⟨false, 0⟩

/-- One invocation of wacom_i2c_irq.  The argument recv is the result
of i2c_master_recv: a negative error aborts with no events and no state
change; on success the handler decodes the buffer, latches the tool
whenever prox was false, stores the new proximity bit, and reports the
key/abs batch followed by a sync. -/
def wacom_i2c_irq (wac : WacomI2c) (recv : Except Int (List Nat)) :
    WacomI2c × List Event :=
  match recv with
  | .error _ => (wac, [])
  | .ok data =>
    match decode_sample data with
    | .error _ => (wac, [])
    | .ok s =>
      let tool := if !wac.prox then
          (if s.status &&& 0x0c != 0 then BTN_TOOL_RUBBER else BTN_TOOL_PEN)
        else wac.tool
      let prox := s.status &&& 0x20 != 0
      (⟨prox, tool⟩,
        [Event.key BTN_TOUCH (s.tsw != 0 || s.ers != 0),
         Event.key tool prox,
         Event.key BTN_STYLUS (s.f1 != 0),
         Event.key BTN_STYLUS2 (s.f2 != 0),
         Event.abs ABS_X s.x,
         Event.abs ABS_Y s.y,
         Event.abs ABS_PRESSURE s.pressure,
         Event.abs ABS_DISTANCE s.distance,
         Event.abs ABS_TILT_X s.tilt_x,
         Event.abs ABS_TILT_Y s.tilt_y,
         Event.syn])

/-- Run the interrupt handler over a list of successfully received
sample buffers, collecting the event batch of each invocation. -/
def runW : WacomI2c → List (List Nat) → WacomI2c × List (List Event)
  | st, [] => (st, [])
  | st, d :: ds =>
    let p := wacom_i2c_irq st (.ok d)
    let r := runW p.1 ds
    (r.1, p.2 :: r.2)

/-- Full 22-byte sample buffer (sizeof of the data array in struct
wacom_i2c) whose status byte data[3] is the given value and whose other
bytes are zero. -/
def sampleBuf (status : Nat) : List Nat :=
  [0, 0, 0, status, 0, 0, 0, 0, 0, 0, 0, 0, 0, 0, 0, 0, 0, 0, 0, 0, 0, 0]

/-- Capability descriptor struct wacom_features.  The fw_version field
is a char in C (unsigned on the ARM target), so the 16-bit load is
stored modulo 256. -/
structure wacom_features where
  x_max : Nat
  y_max : Nat
  pressure_max : Nat
  distance_max : Nat
  distance_physical_max : Nat
  tilt_x_max : Nat
  tilt_y_max : Nat
  fw_version : Nat
deriving DecidableEq, Repr

/-- Field extraction performed by wacom_query_device on the 21-byte
query payload.  The C code reads bytes data[3] through data[20]; a
buffer shorter than 21 bytes yields no descriptor. -/
def wacom_query_device (data : List Nat) : Except DecodeError wacom_features :=
  if data.length < 21 then .error DecodeError.ShortBuffer
  else .ok {
    x_max := le16 (data.getD 3 0) (data.getD 4 0),
    y_max := le16 (data.getD 5 0) (data.getD 6 0),
    pressure_max := le16 (data.getD 11 0) (data.getD 12 0),
    distance_max := data.getD 15 0,
    distance_physical_max := data.getD 16 0,
    tilt_x_max := le16 (data.getD 17 0) (data.getD 18 0),
    tilt_y_max := le16 (data.getD 19 0) (data.getD 20 0),
    fw_version := le16 (data.getD 13 0) (data.getD 14 0) % 256 }

/-- Errno EINVAL; the C functions return -EINVAL. -/
def EINVAL : Int := 22

/-- Errno ETIME; the enable path returns -ETIME on power-good timeout. -/
def ETIME : Int := 62

/-- Register map of the SY7636A: a function from register address to
stored byte.  The regmap is configured with val_bits = 8. -/
abbrev Regmap := Nat → Nat

/-- Register address SY7636A_REG_OPERATION_MODE_CRL from
linux/mfd/sy7636a.h. -/
def SY7636A_REG_OPERATION_MODE_CRL : Nat := 0x00

/-- Enable bit SY7636A_OPERATION_MODE_CRL_ONOFF, used as enable_mask of
the vcom regulator. -/
def SY7636A_OPERATION_MODE_CRL_ONOFF : Nat := 0x80

/-- Register address SY7636A_REG_VCOM_ADJUST_CTRL_L. -/
def SY7636A_REG_VCOM_ADJUST_CTRL_L : Nat := 0x01

/-- Register address SY7636A_REG_VCOM_ADJUST_CTRL_H. -/
def SY7636A_REG_VCOM_ADJUST_CTRL_H : Nat := 0x02

/-- Register address SY7636A_REG_FAULT_FLAG. -/
def SY7636A_REG_FAULT_FLAG : Nat := 0x07

/-- regmap_read of an 8-bit register. -/
def regmap_read (m : Regmap) (reg : Nat) : Nat := m reg

/-- regmap_write of an 8-bit register: the stored value is the low byte
of the written value. -/
def regmap_write (m : Regmap) (reg v : Nat) : Regmap :=
  fun r => if r = reg then v % 256 else m r

/-- get_vcom_voltage_mv from the MFD driver: read the low and high VCOM
adjust registers, combine, mask to 9 bits, multiply by 10 mV. -/
def get_vcom_voltage_mv (m : Regmap) : Int :=
  let val := regmap_read m SY7636A_REG_VCOM_ADJUST_CTRL_L
  let val_h := regmap_read m SY7636A_REG_VCOM_ADJUST_CTRL_H
  (((val ||| (val_h <<< 8)) &&& 0x1FF) * 10 : Nat)

/-- sy7636a_get_vcom_voltage_mv from the regulator driver: identical
reads and mask, but multiplied by 10000. -/
def sy7636a_get_vcom_voltage_mv (m : Regmap) : Int :=
  let val := regmap_read m SY7636A_REG_VCOM_ADJUST_CTRL_L
  let val_h := regmap_read m SY7636A_REG_VCOM_ADJUST_CTRL_H
  (((val ||| (val_h <<< 8)) &&& 0x1FF) * 10000 : Nat)

/-- set_vcom_voltage_mv from the MFD driver.  The vcom parameter is a C
unsigned int, so the source test vcom < 0 is always false; the result
is the returned int together with the regmap after any writes. -/
def set_vcom_voltage_mv (m : Regmap) (vcom : Nat) : Int × Regmap :=
  if vcom < 0 ∨ vcom > 5000 then (-EINVAL, m)
  else
    let val := (vcom / 10) &&& 0x1ff
    let m1 := regmap_write m SY7636A_REG_VCOM_ADJUST_CTRL_L val
    let m2 := regmap_write m1 SY7636A_REG_VCOM_ADJUST_CTRL_H (val >>> 8)
    (0, m2)

/-- Conversion of a C int argument to the unsigned int parameter of
set_vcom_voltage_mv: reduction modulo 2^32. -/
def uintOfInt (i : Int) : Nat := (i % (2 ^ 32)).toNat

/-- set_vcom_voltage_mv invoked with a C int argument, as vcom_store
does after negating the parsed value. -/
def set_voltage_c (m : Regmap) (mv : Int) : Int × Regmap :=
  set_vcom_voltage_mv m (uintOfInt mv)

/-- regulator_enable_regmap with the vcom regulator descriptor: set the
ONOFF bit of the operation-mode register. -/
def regulator_enable_regmap (m : Regmap) : Regmap :=
  regmap_write m SY7636A_REG_OPERATION_MODE_CRL
    (regmap_read m SY7636A_REG_OPERATION_MODE_CRL |||
      SY7636A_OPERATION_MODE_CRL_ONOFF)

/-- regulator_disable_regmap with the vcom regulator descriptor: clear
the ONOFF bit of the operation-mode register. -/
def regulator_disable_regmap (m : Regmap) : Regmap :=
  regmap_write m SY7636A_REG_OPERATION_MODE_CRL
    (regmap_read m SY7636A_REG_OPERATION_MODE_CRL &&&
      (0xFF ^^^ SY7636A_OPERATION_MODE_CRL_ONOFF))

/-- sy7636a_disable_regulator: issue the disable write, then sleep
30 to 35 ms (the sleep has no effect on the modelled state). -/
def sy7636a_disable_regulator (m : Regmap) : Int × Regmap :=
  (0, regulator_disable_regmap m)

/-- sy7636a_regulator_is_enabled via regulator_is_enabled_regmap: the
enable_mask bits of the enable register all set. -/
def sy7636a_regulator_is_enabled (m : Regmap) : Bool :=
  (regmap_read m SY7636A_REG_OPERATION_MODE_CRL &&&
    SY7636A_OPERATION_MODE_CRL_ONOFF) == SY7636A_OPERATION_MODE_CRL_ONOFF

/-- Outcome of the power-good polling loop shared by
sy7636a_enable_regulator_pgood and sy7636a_get_status: either a gpio
read error, or the final pwr_good value together with the loop counter
at exit. -/
inductive PollResult where
  | err (e : Int)
  | done (pwr_good : Int) (wait_cnt : Nat)
deriving DecidableEq, Repr

/-- The polling loop: up to the remaining budget iterations, read the
power-good gpio at the current loop index; a negative read returns that
error, a nonzero read breaks, a zero read sleeps 1 to 1.5 ms and
retries. -/
def poll_pgood (gpio : Nat → Int) (wait_cnt budget : Nat) (pwr_good : Int) :
    PollResult :=
  match budget with
  | 0 => .done pwr_good wait_cnt
  | b + 1 =>
    let p := gpio wait_cnt
    if p < 0 then .err p
    else if p ≠ 0 then .done p wait_cnt
    else poll_pgood gpio (wait_cnt + 1) b p

/-- sy7636a_get_status: run the 500-iteration poll; return the gpio
error if a read failed, and 0 otherwise — whether power-good was seen
or the budget ran out, ret stays 0. -/
def sy7636a_get_status (gpio : Nat → Int) : Int :=
  match poll_pgood gpio 0 500 0 with
  | .err e => e
  | .done _ _ => 0

/-- sy7636a_enable_regulator_pgood: issue the enable write, poll
power-good up to 500 iterations; on a gpio error return it; if the loop
ends with pwr_good still 0, set ret to -ETIME and invoke the disable
path; otherwise succeed. -/
def sy7636a_enable_regulator_pgood (gpio : Nat → Int) (m : Regmap) :
    Int × Regmap :=
  let m1 := regulator_enable_regmap m
  match poll_pgood gpio 0 500 0 with
  | .err e => (e, m1)
  | .done p _ =>
    if p = 0 then (-ETIME, (sy7636a_disable_regulator m1).2)
    else (0, m1)

/-- The 16-entry fault table of the MFD driver. -/
def states : List String :=
  ["no fault event",
   "UVP at VP rail",
   "UVP at VN rail",
   "UVP at VPOS rail",
   "UVP at VNEG rail",
   "UVP at VDDH rail",
   "UVP at VEE rail",
   "SCP at VP rail",
   "SCP at VN rail",
   "SCP at VPOS rail",
   "SCP at VNEG rail",
   "SCP at VDDH rail",
   "SCP at VEE rail",
   "SCP at V COM rail",
   "UVLO",
   "Thermal shutdown"]

/-- state_show: read the fault-flag register, shift right by one, and
index the fault table, rejecting an index past its end with -EINVAL. -/
def state_show (m : Regmap) : Except Int String :=
  let val := regmap_read m SY7636A_REG_FAULT_FLAG >>> 1
  if val ≥ states.length then .error (-EINVAL)
  else .ok (states.getD val "")

/-- powergood_show: read the fault-flag register, mask bit 0, and
render ON or OFF. -/
def powergood_show (m : Regmap) : String :=
  if regmap_read m SY7636A_REG_FAULT_FLAG &&& 0x01 != 0 then "ON" else "OFF"

/-- Proximity sequence out, in with eraser bit, in without it, in with
it again, out: status bytes with prox mask 0x20 and eraser mask 0x04. -/
def seq1 : List (List Nat) :=
  [sampleBuf 0x00, sampleBuf 0x24, sampleBuf 0x20, sampleBuf 0x24, sampleBuf 0x00]

/-- Proximity sequence out, in as pen, out, in with the eraser bit. -/
def seq2 : List (List Nat) :=
  [sampleBuf 0x00, sampleBuf 0x20, sampleBuf 0x00, sampleBuf 0x24]

/-- Concrete 21-byte capability payload used as a witness input. -/
def capBuf : List Nat :=
  [0, 0, 0, 1, 2, 3, 4, 0, 0, 0, 0, 5, 6, 7, 8, 9, 10, 11, 12, 13, 14]

/-- Masking with 0x1ff is the identity below 512. -/
theorem band511 : ∀ w, w < 512 → w &&& 511 = w := by decide

/-- Splitting a value below 512 into its low byte and its ninth bit and
recombining through or, shift and the 9-bit mask gives it back. -/
theorem reconstruct512 :
    ∀ v, v < 512 → ((v % 256) ||| (((v >>> 8) % 256) <<< 8)) &&& 511 = v := by
  decide

/-- A value below 128 has bit 7 clear. -/
theorem and128_bounded : ∀ y, y < 128 → y &&& 128 = 0 := by decide

/-- Clearing the ONOFF bit leaves a byte whose ONOFF bit reads zero. -/
theorem onoff_cleared (x : Nat) : ((x &&& (0xFF ^^^ 0x80)) % 256) &&& 0x80 = 0 := by
  have h1 : x &&& (0xFF ^^^ 0x80) < 128 :=
    lt_of_le_of_lt Nat.and_le_right (by decide)
  rw [Nat.mod_eq_of_lt (by omega)]
  exact and128_bounded _ h1

/-- After the disable write the enable-mask comparison of
regulator_is_enabled_regmap is false. -/
theorem is_enabled_after_disable (x : Nat) :
    ((((x &&& (0xFF ^^^ 0x80)) % 256) &&& 0x80) == 0x80) = false := by
  rw [onoff_cleared]
  rfl

/-- Claim C2: every sample buffer shorter than 15 bytes makes the
sample decode fail with ShortBuffer, and the interrupt handler given
such a buffer emits no events and leaves the tracker state unchanged. -/
theorem decode_sample_short_buffer (data : List Nat) (st : WacomI2c)
    (h : data.length < 15) :
    decode_sample data = .error DecodeError.ShortBuffer ∧
    wacom_i2c_irq st (.ok data) = (st, []) := by
  have hd : decode_sample data = .error DecodeError.ShortBuffer := by
    simp [decode_sample, h]
  exact ⟨hd, by simp [wacom_i2c_irq, hd]⟩

/-- Witness for C2 at the empty buffer. -/
theorem decode_sample_short_buffer_inst :
    decode_sample [] = .error DecodeError.ShortBuffer ∧
    wacom_i2c_irq wacom_init (.ok []) = (wacom_init, []) :=
  decode_sample_short_buffer [] wacom_init (by decide)

/-- Claim C1 counterexample: a sample whose status byte has the eraser
mask set but the proximity bit clear, delivered while the tracker is
out of proximity, re-latches the tool, although the claim requires
current_tool to stay unchanged on any sample that is not a rising
proximity edge. -/
theorem wacom_tool_latch_out_of_prox_relatch :
    (sampleBuf 0x04).getD 3 0 &&& 0x20 = 0 ∧
    (wacom_i2c_irq ⟨false, BTN_TOOL_PEN⟩ (.ok (sampleBuf 0x04))).1.tool =
      BTN_TOOL_RUBBER ∧
    BTN_TOOL_RUBBER ≠ BTN_TOOL_PEN := by decide

/-- Claim C1 (amended): the tracker latches current_tool from the raw
eraser mask of the status byte exactly when the stored proximity flag
is false — including samples that stay out of proximity — leaves it
unchanged when the flag is true, and afterwards stores the proximity
bit of the sample. -/
theorem wacom_tool_latch_amended (st : WacomI2c) (data : List Nat)
    (h : 15 ≤ data.length) :
    ((wacom_i2c_irq st (.ok data)).1.tool =
      if st.prox then st.tool
      else if data.getD 3 0 &&& 0x0c != 0 then BTN_TOOL_RUBBER
      else BTN_TOOL_PEN) ∧
    (wacom_i2c_irq st (.ok data)).1.prox = (data.getD 3 0 &&& 0x20 != 0) := by
  have hnot : ¬ data.length < 15 := Nat.not_lt.mpr h
  cases hp : st.prox <;>
    simp [wacom_i2c_irq, decode_sample, hnot, hp]

/-- Witness for the amended C1 at a concrete in-proximity eraser
sample. -/
theorem wacom_tool_latch_amended_inst :
    ((wacom_i2c_irq wacom_init (.ok (sampleBuf 0x24))).1.tool =
      if wacom_init.prox then wacom_init.tool
      else if (sampleBuf 0x24).getD 3 0 &&& 0x0c != 0 then BTN_TOOL_RUBBER
      else BTN_TOOL_PEN) ∧
    (wacom_i2c_irq wacom_init (.ok (sampleBuf 0x24))).1.prox =
      ((sampleBuf 0x24).getD 3 0 &&& 0x20 != 0) :=
  wacom_tool_latch_amended wacom_init (sampleBuf 0x24) (by decide)

/-- Claim C5: over the proximity sequence out, in(eraser), in(pen bit),
in(eraser), out the reported tool event is Eraser for all three
in-proximity samples, and over out, in(pen), out, in(eraser) the two
sessions classify independently as Pen then Eraser. -/
theorem tool_latch_sequences :
    (runW wacom_init seq1).2.map (fun evs => evs.getD 1 Event.syn) =
      [Event.key BTN_TOOL_PEN false, Event.key BTN_TOOL_RUBBER true,
       Event.key BTN_TOOL_RUBBER true, Event.key BTN_TOOL_RUBBER true,
       Event.key BTN_TOOL_RUBBER false] ∧
    (runW wacom_init seq2).2.map (fun evs => evs.getD 1 Event.syn) =
      [Event.key BTN_TOOL_PEN false, Event.key BTN_TOOL_PEN true,
       Event.key BTN_TOOL_PEN false, Event.key BTN_TOOL_RUBBER true] := by
  decide

/-- Claim C9: on the same register contents the regulator-framework
voltage getter returns exactly 1000 times what the MFD voltage getter
returns. -/
theorem vcom_getters_factor_1000 (m : Regmap) :
    sy7636a_get_vcom_voltage_mv m = 1000 * get_vcom_voltage_mv m := by
  simp only [sy7636a_get_vcom_voltage_mv, get_vcom_voltage_mv]
  push_cast
  ring

/-- Claim C6: the status decode reports bit 0 of the fault-flag byte as
the power-good flag, indexes the 16-entry fault table with the byte
shifted right by one, fails with -EINVAL instead of indexing when the
shifted value reaches the table length, and on the byte 0b00000011
yields power-good ON and the fault string "UVP at VP rail". -/
theorem fault_status_decode (m : Regmap) :
    (regmap_read m SY7636A_REG_FAULT_FLAG >>> 1 < states.length →
      state_show m =
        .ok (states.getD (regmap_read m SY7636A_REG_FAULT_FLAG >>> 1) "")) ∧
    (states.length ≤ regmap_read m SY7636A_REG_FAULT_FLAG >>> 1 →
      state_show m = .error (-EINVAL)) ∧
    states.length = 16 ∧
    (powergood_show m = "ON" ↔
      regmap_read m SY7636A_REG_FAULT_FLAG &&& 0x01 ≠ 0) ∧
    powergood_show (fun _ => 3) = "ON" ∧
    state_show (fun _ => 3) = .ok "UVP at VP rail" := by
  refine ⟨fun h => ?_, fun h => ?_, by decide, ?_, rfl, rfl⟩
  · simp [state_show, Nat.not_le.mpr h]
  · simp [state_show, h]
  · by_cases hb : regmap_read m SY7636A_REG_FAULT_FLAG &&& 0x01 = 0 <;>
      simp [powergood_show, hb]

/-- Witness for C6 at the fault bytes 32 (shifted index 16, rejected)
and 3 (power-good with a VP-rail under-voltage fault). -/
theorem fault_status_decode_inst :
    state_show (fun _ => 32 : Regmap) = .error (-EINVAL) ∧
    state_show (fun _ => 3 : Regmap) = .ok "UVP at VP rail" :=
  ⟨(fault_status_decode (fun _ => 32)).2.1 (by decide),
   (fault_status_decode (fun _ => 3)).2.2.2.2.2⟩

/-- Claim C7: a valid 21-byte capability buffer decodes to the fields
at the fixed little-endian offsets, and the fw_version field is the
16-bit little-endian value at offset 13 reduced modulo 256, which for
byte-valued buffers is exactly the byte at offset 13. -/
theorem query_device_fw_truncation (data : List Nat)
    (h21 : data.length = 21) (hb : ∀ b ∈ data, b < 256) :
    wacom_query_device data = .ok {
      x_max := le16 (data.getD 3 0) (data.getD 4 0),
      y_max := le16 (data.getD 5 0) (data.getD 6 0),
      pressure_max := le16 (data.getD 11 0) (data.getD 12 0),
      distance_max := data.getD 15 0,
      distance_physical_max := data.getD 16 0,
      tilt_x_max := le16 (data.getD 17 0) (data.getD 18 0),
      tilt_y_max := le16 (data.getD 19 0) (data.getD 20 0),
      fw_version := le16 (data.getD 13 0) (data.getD 14 0) % 256 } ∧
    le16 (data.getD 13 0) (data.getD 14 0) % 256 = data.getD 13 0 := by
  constructor
  · simp [wacom_query_device, h21]
  · have hlt : 13 < data.length := by omega
    have h13 : data.getD 13 0 < 256 := by
      have hm : data.getD 13 0 ∈ data := by
        rw [List.getD_eq_getElem data 0 hlt]
        exact List.getElem_mem hlt
      exact hb _ hm
    rw [le16, Nat.add_mul_mod_self_left, Nat.mod_eq_of_lt h13]

/-- Witness for C7 at a concrete 21-byte buffer. -/
theorem query_device_fw_truncation_inst :
    wacom_query_device capBuf = .ok {
      x_max := le16 (capBuf.getD 3 0) (capBuf.getD 4 0),
      y_max := le16 (capBuf.getD 5 0) (capBuf.getD 6 0),
      pressure_max := le16 (capBuf.getD 11 0) (capBuf.getD 12 0),
      distance_max := capBuf.getD 15 0,
      distance_physical_max := capBuf.getD 16 0,
      tilt_x_max := le16 (capBuf.getD 17 0) (capBuf.getD 18 0),
      tilt_y_max := le16 (capBuf.getD 19 0) (capBuf.getD 20 0),
      fw_version := le16 (capBuf.getD 13 0) (capBuf.getD 14 0) % 256 } ∧
    le16 (capBuf.getD 13 0) (capBuf.getD 14 0) % 256 = capBuf.getD 13 0 :=
  query_device_fw_truncation capBuf (by decide) (by decide)

/-- Claim C8: set_vcom_voltage_mv succeeds and writes both VCOM
registers for every magnitude up to 5000, rejects any larger magnitude
with -EINVAL leaving the registers untouched, and a C int argument of
-1 converts to 4294967295 and is likewise rejected untouched. -/
theorem set_vcom_voltage_range_check (m : Regmap) (mv : Nat) :
    (mv ≤ 5000 →
      set_vcom_voltage_mv m mv =
        ((0 : Int), regmap_write
              (regmap_write m SY7636A_REG_VCOM_ADJUST_CTRL_L
                ((mv / 10) &&& 0x1ff))
              SY7636A_REG_VCOM_ADJUST_CTRL_H (((mv / 10) &&& 0x1ff) >>> 8))) ∧
    (5000 < mv → set_vcom_voltage_mv m mv = (-EINVAL, m)) ∧
    set_voltage_c m (-1) = (-EINVAL, m) := by
  refine ⟨fun h => ?_, fun h => ?_, ?_⟩
  · rw [set_vcom_voltage_mv, if_neg (by omega)]
  · rw [set_vcom_voltage_mv, if_pos (Or.inr h)]
  · have hu : uintOfInt (-1) = 4294967295 := by decide
    rw [set_voltage_c, hu, set_vcom_voltage_mv, if_pos (by omega)]

/-- Witness for C8 at the boundary magnitudes 5000 and 5001 and at the
int argument -1. -/
theorem set_vcom_voltage_range_check_inst :
    set_vcom_voltage_mv (fun _ => 0) 5000 =
      ((0 : Int), regmap_write
            (regmap_write (fun _ => 0) SY7636A_REG_VCOM_ADJUST_CTRL_L
              ((5000 / 10) &&& 0x1ff))
            SY7636A_REG_VCOM_ADJUST_CTRL_H (((5000 / 10) &&& 0x1ff) >>> 8)) ∧
    set_vcom_voltage_mv (fun _ => 0) 5001 = (-EINVAL, fun _ => 0) ∧
    set_voltage_c (fun _ => 0) (-1) = (-EINVAL, fun _ => 0) :=
  ⟨(set_vcom_voltage_range_check (fun _ => 0) 5000).1 (by decide),
   (set_vcom_voltage_range_check (fun _ => 0) 5001).2.1 (by decide),
   (set_vcom_voltage_range_check (fun _ => 0) 5001).2.2⟩

/-- Claim C3: for any magnitude up to 5000, set_vcom_voltage_mv stores
the floor of mv/10 in the 9-bit register pair, get_vcom_voltage_mv
decodes that 9-bit value and multiplies it back by the 10 mV
resolution, and the round trip loses less than 10 mV. -/
theorem vcom_voltage_round_trip (m : Regmap) (mv : Nat) (h : mv ≤ 5000) :
    ((regmap_read (set_vcom_voltage_mv m mv).2 SY7636A_REG_VCOM_ADJUST_CTRL_L |||
        (regmap_read (set_vcom_voltage_mv m mv).2 SY7636A_REG_VCOM_ADJUST_CTRL_H
          <<< 8)) &&& 0x1FF) = mv / 10 ∧
    get_vcom_voltage_mv (set_vcom_voltage_mv m mv).2 = ((mv / 10) * 10 : Nat) ∧
    get_vcom_voltage_mv (set_vcom_voltage_mv m mv).2 ≤ (mv : Int) ∧
    (mv : Int) - 10 < get_vcom_voltage_mv (set_vcom_voltage_mv m mv).2 := by
  have hdiv : mv / 10 < 512 := by omega
  have hval : (mv / 10) &&& 0x1ff = mv / 10 := band511 _ hdiv
  have hset : set_vcom_voltage_mv m mv =
      ((0 : Int), regmap_write
            (regmap_write m SY7636A_REG_VCOM_ADJUST_CTRL_L (mv / 10))
            SY7636A_REG_VCOM_ADJUST_CTRL_H ((mv / 10) >>> 8)) := by
    rw [set_vcom_voltage_mv, if_neg (by omega)]
    simp only [hval]
  have hrec : (((mv / 10) % 256) ||| ((((mv / 10) >>> 8) % 256) <<< 8)) &&& 511 =
      mv / 10 := reconstruct512 _ hdiv
  have hread : ((regmap_read (set_vcom_voltage_mv m mv).2
        SY7636A_REG_VCOM_ADJUST_CTRL_L |||
      (regmap_read (set_vcom_voltage_mv m mv).2 SY7636A_REG_VCOM_ADJUST_CTRL_H
        <<< 8)) &&& 0x1FF) = mv / 10 := by
    rw [hset]
    simp only [regmap_read, regmap_write, SY7636A_REG_VCOM_ADJUST_CTRL_L,
      SY7636A_REG_VCOM_ADJUST_CTRL_H]
    norm_num
    exact hrec
  have hget : get_vcom_voltage_mv (set_vcom_voltage_mv m mv).2 =
      ((mv / 10) * 10 : Nat) := by
    rw [get_vcom_voltage_mv]
    rw [hread]
  refine ⟨hread, hget, ?_, ?_⟩
  · rw [hget]
    have : mv / 10 * 10 ≤ mv := Nat.div_mul_le_self mv 10
    exact_mod_cast this
  · rw [hget]
    have : mv < mv / 10 * 10 + 10 := by omega
    push_cast
    omega

/-- Witness for C3 at the documented magnitude 1234, round-tripping to
1230. -/
theorem vcom_voltage_round_trip_inst :
    get_vcom_voltage_mv (set_vcom_voltage_mv (fun _ => 0 : Regmap) 1234).2 = 1230 :=
  (vcom_voltage_round_trip (fun _ => 0) 1234 (by decide)).2.1

/-- When every gpio read in the remaining budget returns 0, the poll
runs the budget down and exits with pwr_good still 0 and the counter
advanced by the whole budget. -/
theorem poll_pgood_all_zero (gpio : Nat → Int) :
    ∀ b cnt, (∀ i, i < b → gpio (cnt + i) = 0) →
      poll_pgood gpio cnt b 0 = .done 0 (cnt + b) := by
  intro b
  induction b with
  | zero => intro cnt _; rfl
  | succ b ih =>
    intro cnt h
    have h0 : gpio cnt = 0 := by simpa using h 0 (Nat.succ_pos b)
    have hrest : ∀ i, i < b → gpio (cnt + 1 + i) = 0 := by
      intro i hi
      have := h (i + 1) (by omega)
      calc gpio (cnt + 1 + i) = gpio (cnt + (i + 1)) := by ring_nf
        _ = 0 := this
    have heq : cnt + 1 + b = cnt + (b + 1) := by omega
    simp only [poll_pgood, h0]
    norm_num
    rw [ih (cnt + 1) hrest, heq]

/-- When the poll exits with an error, some read inside the budget
returned that negative value and every earlier read returned 0. -/
theorem poll_pgood_err_spec (gpio : Nat → Int) :
    ∀ b cnt e, poll_pgood gpio cnt b 0 = .err e →
      ∃ k, k < b ∧ gpio (cnt + k) = e ∧ e < 0 ∧
        ∀ j, j < k → gpio (cnt + j) = 0 := by
  intro b
  induction b with
  | zero =>
    intro cnt e h
    exact absurd h (by simp [poll_pgood])
  | succ b ih =>
    intro cnt e h
    by_cases hlt : gpio cnt < 0
    · refine ⟨0, Nat.succ_pos b, ?_, ?_, fun j hj => absurd hj (Nat.not_lt_zero j)⟩
      · have : poll_pgood gpio cnt (b + 1) 0 = .err (gpio cnt) := by
          simp only [poll_pgood, if_pos hlt]
        rw [this] at h
        cases h
        simp
      · have : poll_pgood gpio cnt (b + 1) 0 = .err (gpio cnt) := by
          simp only [poll_pgood, if_pos hlt]
        rw [this] at h
        cases h
        exact hlt
    · by_cases hne : gpio cnt = 0
      · have hstep : poll_pgood gpio cnt (b + 1) 0 =
            poll_pgood gpio (cnt + 1) b 0 := by
          simp only [poll_pgood, hne]
          norm_num
        rw [hstep] at h
        obtain ⟨k, hk, hg, he, hz⟩ := ih (cnt + 1) e h
        refine ⟨k + 1, by omega, ?_, he, ?_⟩
        · calc gpio (cnt + (k + 1)) = gpio (cnt + 1 + k) := by ring_nf
            _ = e := hg
        · intro j hj
          match j with
          | 0 => simpa using hne
          | Nat.succ j =>
            calc gpio (cnt + (j + 1)) = gpio (cnt + 1 + j) := by ring_nf
              _ = 0 := hz j (by omega)
      · exfalso
        have : poll_pgood gpio cnt (b + 1) 0 = .done (gpio cnt) cnt := by
          simp only [poll_pgood, if_neg hlt, if_pos hne]
        rw [this] at h
        cases h

/-- Claim C10: whenever every power-good gpio read is non-negative,
sy7636a_get_status returns 0 — power-good asserted and a full timeout
are indistinguishable in its return value — and a nonzero return only
arises from a failed gpio read, whose negative value is returned
immediately. -/
theorem get_status_never_reports_timeout (gpio : Nat → Int) :
    ((∀ i, i < 500 → 0 ≤ gpio i) → sy7636a_get_status gpio = 0) ∧
    (sy7636a_get_status gpio ≠ 0 →
      ∃ k, k < 500 ∧ gpio k < 0 ∧ sy7636a_get_status gpio = gpio k ∧
        ∀ j, j < k → gpio j = 0) := by
  constructor
  · intro h
    unfold sy7636a_get_status
    cases hp : poll_pgood gpio 0 500 0 with
    | err e =>
      obtain ⟨k, hk, hg, he, _⟩ := poll_pgood_err_spec gpio 500 0 e hp
      have := h k hk
      simp only [Nat.zero_add] at hg
      omega
    | done p k => rfl
  · intro h
    cases hp : poll_pgood gpio 0 500 0 with
    | done p k =>
      exfalso
      apply h
      unfold sy7636a_get_status
      rw [hp]
    | err e =>
      have hval : sy7636a_get_status gpio = e := by
        unfold sy7636a_get_status
        rw [hp]
      obtain ⟨k, hk, hg, he, hz⟩ := poll_pgood_err_spec gpio 500 0 e hp
      simp only [Nat.zero_add] at hg hz
      exact ⟨k, hk, by omega, by rw [hval, hg], hz⟩

/-- Witness for C10 at a gpio that always reads 0: the full budget runs
out, yet the returned status is 0. -/
theorem get_status_never_reports_timeout_inst :
    sy7636a_get_status (fun _ => 0) = 0 :=
  (get_status_never_reports_timeout (fun _ => 0)).1 (fun _ _ => le_refl 0)

/-- Claim C4: when all 500 power-good polls read 0, the enable path
returns -ETIME, first invoking the disable path on the rail it had just
enabled, and afterwards the regulator reads back as not enabled. -/
theorem enable_pgood_timeout_disables (gpio : Nat → Int) (m : Regmap)
    (h : ∀ i, i < 500 → gpio i = 0) :
    sy7636a_enable_regulator_pgood gpio m =
      (-ETIME, (sy7636a_disable_regulator (regulator_enable_regmap m)).2) ∧
    sy7636a_regulator_is_enabled
      (sy7636a_enable_regulator_pgood gpio m).2 = false := by
  have hp : poll_pgood gpio 0 500 0 = .done 0 (0 + 500) :=
    poll_pgood_all_zero gpio 500 0 (fun i hi => by simpa using h i hi)
  have he : sy7636a_enable_regulator_pgood gpio m =
      (-ETIME, (sy7636a_disable_regulator (regulator_enable_regmap m)).2) := by
    unfold sy7636a_enable_regulator_pgood
    rw [hp]
    norm_num
  refine ⟨he, ?_⟩
  rw [he]
  show ((((((m 0 ||| 128) % 256) &&& (255 ^^^ 128)) % 256) &&& 128) == 128) = false
  exact is_enabled_after_disable _

/-- Witness for C4 at a gpio stuck at 0 and an all-zero regmap. -/
theorem enable_pgood_timeout_disables_inst :
    sy7636a_enable_regulator_pgood (fun _ => 0) (fun _ => 0) =
      (-ETIME,
        (sy7636a_disable_regulator (regulator_enable_regmap (fun _ => 0))).2) ∧
    sy7636a_regulator_is_enabled
      (sy7636a_enable_regulator_pgood (fun _ => 0) (fun _ => 0)).2 = false :=
  enable_pgood_timeout_disables (fun _ => 0) (fun _ => 0) (fun _ _ => rfl)

end Rm2
